import Mathlib

/- Verification of the OAuth2 token-manager / authenticated-request core of
   src/app.py (rjAkarsh/activiti-viewer).

   Shallow embedding conventions:
   - timestamps (Python time.time and expires_in values) are integers;
   - the provider interaction of one _fetch_new_token attempt is described by a
     FetchResult argument: what the provider round trip produced this time;
   - the network outcome of the authenticated call in make_secure_request is a
     NetworkOutcome argument;
   - Python dicts of headers are total maps String → Option String;
   - Python mutation of the two token fields is explicit state passing on
     ManagerState. -/

/-- Mutable fields of an OAuth2Manager instance: the field access_token models
self dot _access_token (None at construction) and token_expiry models
self dot _token_expiry (0 at construction). -/
structure ManagerState where
  access_token : Option String
  token_expiry : ℤ
  deriving DecidableEq, Repr

/-- Field values set by OAuth2Manager.__init__. -/
def OAuth2Manager.init : ManagerState := ⟨none, 0⟩

/-- Outcome of the provider round trip performed by one _fetch_new_token
attempt.  netError is a network-level requests failure, httpError a non-2xx
status (raise_for_status), malformedBody a response whose json() call fails,
missingAccessToken a JSON body without the access_token key (KeyError on
data["access_token"]); ok carries the access_token value and the optional
expires_in field of the JSON body. -/
inductive FetchResult where
  | netError
  | httpError
  | malformedBody
  | missingAccessToken
  | ok (access_token : String) (expires_in : Option ℤ)
  deriving DecidableEq, Repr

/-- True on every outcome of a fetch attempt that raises in Python. -/
def FetchResult.isFailure : FetchResult → Bool
  | .ok _ _ => false
  | _ => true

/-- Python truthiness of the Optional[str] field _access_token: None and the
empty string are falsy, every other string is truthy. -/
def pyTruthy : Option String → Bool
  | none => false
  | some t => if t = "" then false else true

/-- The refresh condition of get_token, line 60 of src/app.py:
`not self._access_token or time.time() >= self._token_expiry`. -/
def needsFetch (s : ManagerState) (now : ℤ) : Bool :=
  !pyTruthy s.access_token || decide (now ≥ s.token_expiry)

/-- OAuth2Manager._fetch_new_token (src/app.py lines 33-56).  On a successful
round trip it assigns _access_token from the body's access_token and
_token_expiry to now + expires_in - 60 with expires_in defaulting to 3600
(data.get with default).  Every failure raises before the first assignment,
so the prior field values survive; the exception propagates (the except
clause re-raises, and the KeyError of a missing access_token is not caught
at all). -/
def fetch_new_token (s : ManagerState) (now : ℤ) (r : FetchResult) :
    Except Unit Unit × ManagerState :=
  match r with
  | .ok tok ein => (.ok (), ⟨some tok, now + ein.getD 3600 - 60⟩)
  | _ => (.error (), s)

/-- Observable outcome of one get_token call: the value returned (Python would
return the field _access_token, an Optional[str]) or the propagated
exception, the manager state after the call, and whether an underlying
provider fetch was attempted. -/
structure GetTokenResult where
  result : Except Unit (Option String)
  state : ManagerState
  fetched : Bool

/-- OAuth2Manager.get_token (src/app.py lines 58-62): fetch when the truthiness
or expiry check fires, then return the _access_token field. -/
def get_token (s : ManagerState) (now : ℤ) (r : FetchResult) : GetTokenResult :=
  if needsFetch s now then
    match fetch_new_token s now r with
    | (.ok _, s2) => ⟨.ok s2.access_token, s2, true⟩
    | (.error e, s2) => ⟨.error e, s2, true⟩
  else ⟨.ok s.access_token, s, false⟩

/-- Run a sequence of get_token calls, threading the manager state; each call
is given by its wall-clock time and the provider outcome its fetch attempt
would see. -/
def run_calls (s : ManagerState) : List (ℤ × FetchResult) → List GetTokenResult
  | [] => []
  | c :: rest =>
    let g := get_token s c.1 c.2
    g :: run_calls g.state rest

/-- Number of calls in a trace that attempted an underlying fetch. -/
def countFetches (l : List GetTokenResult) : ℕ :=
  (l.filter fun g => g.fetched).length

/- Helper lemmas about the refresh condition. -/

theorem pyTruthy_true_iff (o : Option String) :
    pyTruthy o = true ↔ ∃ t, o = some t ∧ t ≠ "" := by
  cases o with
  | none => simp [pyTruthy]
  | some t =>
    by_cases h : t = "" <;> simp [pyTruthy, h]

theorem needsFetch_true_iff (s : ManagerState) (now : ℤ) :
    needsFetch s now = true ↔
      (pyTruthy s.access_token = false ∨ now ≥ s.token_expiry) := by
  simp [needsFetch, Bool.or_eq_true, Bool.not_eq_true', ge_iff_le]

theorem needsFetch_false_iff (s : ManagerState) (now : ℤ) :
    needsFetch s now = false ↔
      (pyTruthy s.access_token = true ∧ now < s.token_expiry) := by
  rcases hp : pyTruthy s.access_token <;> simp [needsFetch, hp, not_le]

theorem get_token_fetched (s : ManagerState) (now : ℤ) (r : FetchResult) :
    (get_token s now r).fetched = needsFetch s now := by
  by_cases h : needsFetch s now = true
  · cases r <;> simp [get_token, h, fetch_new_token]
  · rw [Bool.not_eq_true] at h
    simp [get_token, h]

theorem get_token_cached (s : ManagerState) (now : ℤ) (r : FetchResult)
    (htok : pyTruthy s.access_token = true) (hfresh : now < s.token_expiry) :
    get_token s now r = ⟨.ok s.access_token, s, false⟩ := by
  have h : needsFetch s now = false := (needsFetch_false_iff s now).mpr ⟨htok, hfresh⟩
  simp [get_token, h]

theorem get_token_stale_ok (s : ManagerState) (now : ℤ) (tok : String)
    (ein : Option ℤ) (h : needsFetch s now = true) :
    get_token s now (.ok tok ein) =
      ⟨.ok (some tok), ⟨some tok, now + ein.getD 3600 - 60⟩, true⟩ := by
  simp [get_token, h, fetch_new_token]

theorem get_token_stale_err (s : ManagerState) (now : ℤ) (r : FetchResult)
    (h : needsFetch s now = true) (hr : r.isFailure = true) :
    get_token s now r = ⟨.error (), s, true⟩ := by
  cases r <;> simp_all [get_token, fetch_new_token, FetchResult.isFailure]

theorem run_calls_cached (s : ManagerState) (htok : pyTruthy s.access_token = true)
    (calls : List (ℤ × FetchResult)) (h : ∀ c ∈ calls, c.1 < s.token_expiry) :
    run_calls s calls = calls.map fun _ => ⟨.ok s.access_token, s, false⟩ := by
  induction calls with
  | nil => rfl
  | cons c rest ih =>
    have h1 : get_token s c.1 c.2 = ⟨.ok s.access_token, s, false⟩ :=
      get_token_cached s c.1 c.2 htok (h c (List.mem_cons_self c rest))
    simp only [run_calls, h1, List.map_cons]
    exact congrArg _ (ih fun d hd => h d (List.mem_cons_of_mem c hd))

theorem countFetches_zero (l : List GetTokenResult)
    (h : ∀ g ∈ l, g.fetched = false) : countFetches l = 0 := by
  simp only [countFetches, List.length_eq_zero, List.filter_eq_nil_iff]
  intro g hg
  simp [h g hg]

/-- C1: a get_token call attempts an underlying fetch iff no cached token
exists (in the Python-truthiness sense of line 60: the field is None or the
empty string) or now is at or past the stored expiry; otherwise it performs no
fetch and returns the cached token with the state unchanged; and after a
successful fetch of a non-empty token, every further call strictly inside the
stored validity window performs no fetch and returns the identical token
string, so the whole window sees exactly one fetch, at its start. -/
theorem get_token_fetch_iff_stale_and_window
    (s : ManagerState) (now : ℤ) (r : FetchResult) :
    ((get_token s now r).fetched = true ↔
      (pyTruthy s.access_token = false ∨ now ≥ s.token_expiry))
    ∧ (pyTruthy s.access_token = true → now < s.token_expiry →
        get_token s now r = ⟨.ok s.access_token, s, false⟩)
    ∧ (∀ (tok : String) (ein : Option ℤ) (calls : List (ℤ × FetchResult)),
        tok ≠ "" →
        needsFetch s now = true →
        (∀ c ∈ calls, c.1 < now + ein.getD 3600 - 60) →
        countFetches (get_token s now (.ok tok ein) ::
            run_calls (get_token s now (.ok tok ein)).state calls) = 1
        ∧ ∀ g ∈ get_token s now (.ok tok ein) ::
              run_calls (get_token s now (.ok tok ein)).state calls,
            g.result = .ok (some tok)) := by
  refine ⟨?_, ?_, ?_⟩
  · rw [get_token_fetched]
    exact needsFetch_true_iff s now
  · intro htok hfresh
    exact get_token_cached s now r htok hfresh
  · intro tok ein calls hne hstale hwin
    have hg : get_token s now (.ok tok ein) =
        ⟨.ok (some tok), ⟨some tok, now + ein.getD 3600 - 60⟩, true⟩ :=
      get_token_stale_ok s now tok ein hstale
    rw [hg]
    have htr : pyTruthy (ManagerState.mk (some tok) (now + ein.getD 3600 - 60)).access_token = true := by
      simp [pyTruthy, hne]
    have hrun : run_calls ⟨some tok, now + ein.getD 3600 - 60⟩ calls =
        calls.map fun _ =>
          ⟨.ok (ManagerState.mk (some tok) (now + ein.getD 3600 - 60)).access_token,
            ⟨some tok, now + ein.getD 3600 - 60⟩, false⟩ :=
      run_calls_cached _ htr calls hwin
    constructor
    · rw [hrun]
      simp [countFetches, List.filter_cons]
    · intro g hgm
      rcases List.mem_cons.mp hgm with hcase | hcase
      · rw [hcase]
      · rw [hrun] at hcase
        rcases List.mem_map.mp hcase with ⟨c, _, hc⟩
        rw [← hc]

/-- C1 witness: a fresh manager at t=0 fetches tok1 with expires_in 120, and a
second call at t=59 (inside the stored window ending at 60) adds no further
fetch and returns tok1 again. -/
theorem get_token_fetch_iff_stale_and_window_witness :
    countFetches (get_token ⟨none, 0⟩ 0 (.ok "tok1" (some 120)) ::
        run_calls (get_token ⟨none, 0⟩ 0 (.ok "tok1" (some 120))).state
          [(59, .httpError)]) = 1
    ∧ ∀ g ∈ get_token ⟨none, 0⟩ 0 (.ok "tok1" (some 120)) ::
          run_calls (get_token ⟨none, 0⟩ 0 (.ok "tok1" (some 120))).state
            [(59, .httpError)],
        g.result = .ok (some "tok1") := by
  have h := (get_token_fetch_iff_stale_and_window ⟨none, 0⟩ 0 .httpError).2.2
    "tok1" (some 120) [(59, .httpError)] (by decide) (by decide) (by decide)
  exact h

/-- C2: every failing fetch attempt (network error, non-2xx, malformed body,
or missing access_token field) leaves both cached fields exactly as they were,
including the Empty state, and the error propagates out of get_token whenever
the fetch was triggered. -/
theorem fetch_failure_preserves_cache (s : ManagerState) (now : ℤ)
    (r : FetchResult) (hr : r.isFailure = true) :
    fetch_new_token s now r = (.error (), s)
    ∧ (needsFetch s now = true →
        (get_token s now r).result = .error ()
        ∧ (get_token s now r).state = s) := by
  constructor
  · cases r <;> simp_all [FetchResult.isFailure, fetch_new_token]
  · intro hst
    rw [get_token_stale_err s now r hst hr]
    exact ⟨rfl, rfl⟩

/-- C2 witness: a failing fetch from the Empty construction state leaves it
Empty and the error reaches the get_token caller. -/
theorem fetch_failure_preserves_cache_witness :
    fetch_new_token ⟨none, 0⟩ 0 .httpError = (.error (), ⟨none, 0⟩)
    ∧ (get_token ⟨none, 0⟩ 0 .httpError).result = .error ()
    ∧ (get_token ⟨none, 0⟩ 0 .httpError).state = ⟨none, 0⟩ := by
  have h := fetch_failure_preserves_cache ⟨none, 0⟩ 0 .httpError rfl
  exact ⟨h.1, (h.2 rfl).1, (h.2 rfl).2⟩

/-- C4: a successful fetch stores exactly the body's access_token and the
expiry now + expires_in - 60 with expires_in defaulting to 3600 when the
field is absent; consequently the token counts as expired from 60 time-units
before its provider-declared expiry on. -/
theorem fetch_success_stores_buffered_expiry
    (s : ManagerState) (now e : ℤ) (tok : String) (ein : Option ℤ) :
    fetch_new_token s now (.ok tok ein) =
      (.ok (), ⟨some tok, now + ein.getD 3600 - 60⟩)
    ∧ (fetch_new_token s now (.ok tok (some e))).2.token_expiry = now + e - 60
    ∧ (fetch_new_token s now (.ok tok none)).2.token_expiry = now + 3600 - 60
    ∧ ∀ t : ℤ, now + ein.getD 3600 - 60 ≤ t →
        needsFetch (fetch_new_token s now (.ok tok ein)).2 t = true := by
  refine ⟨rfl, rfl, rfl, fun t ht => ?_⟩
  simp [fetch_new_token, needsFetch, ht]

/-- C4 witness: fetching tok1 with expires_in 120 at t=0 stores expiry 60, and
at t=60 the manager already wants a fresh fetch. -/
theorem fetch_success_stores_buffered_expiry_witness :
    fetch_new_token ⟨none, 0⟩ 0 (.ok "tok1" (some 120)) =
      (.ok (), ⟨some "tok1", 0 + 120 - 60⟩)
    ∧ needsFetch (fetch_new_token ⟨none, 0⟩ 0 (.ok "tok1" (some 120))).2 60 = true := by
  have h := fetch_success_stores_buffered_expiry ⟨none, 0⟩ 0 120 "tok1" (some 120)
  exact ⟨h.1, h.2.2.2 60 (by decide)⟩

/-- C10: if the cache ever holds the empty string as access token, every
get_token call fetches regardless of the stored expiry (the truthiness check
of line 60 treats it as absent); equivalently, whenever a call returns without
fetching, the returned cached token string is non-empty. -/
theorem empty_token_forces_fetch (s : ManagerState) (now : ℤ) (r : FetchResult) :
    (s.access_token = some "" → (get_token s now r).fetched = true)
    ∧ ((get_token s now r).fetched = false →
        ∃ tok : String, tok ≠ "" ∧ (get_token s now r).result = .ok (some tok)) := by
  constructor
  · intro hempty
    rw [get_token_fetched]
    refine (needsFetch_true_iff s now).mpr (Or.inl ?_)
    rw [hempty]
    rfl
  · intro hnof
    rw [get_token_fetched] at hnof
    rcases (needsFetch_false_iff s now).mp hnof with ⟨htr, hlt⟩
    rcases (pyTruthy_true_iff s.access_token).mp htr with ⟨tok, hsome, hne⟩
    refine ⟨tok, hne, ?_⟩
    rw [get_token_cached s now r htr hlt, ← hsome]

/-- C10 witness: with an empty-string token cached and expiry far in the
future, a call at t=0 still fetches. -/
theorem empty_token_forces_fetch_witness :
    (get_token ⟨some "", 1000⟩ 0 (.ok "tok2" none)).fetched = true :=
  (empty_token_forces_fetch ⟨some "", 1000⟩ 0 (.ok "tok2" none)).1 rfl

/-- C3 counterexample: tok1 is fetched at t=0 with expires_in 120, so the
stored (buffered) expiry is 60 while the provider-declared window runs to 120.
A fetch at t=60 fails; the cached tok1 is untouched and is still inside its
provider-declared validity window, yet the subsequent call at t=61 — also
still inside that window — propagates the fetch error instead of returning
the cached "tok1": the stale token is not reused after a failed fetch. -/
theorem stale_token_not_reused_after_failed_fetch :
    (get_token ⟨none, 0⟩ 0 (.ok "tok1" (some 120))).state = ⟨some "tok1", 60⟩
    ∧ (get_token ⟨some "tok1", 60⟩ 60 .httpError).result = .error ()
    ∧ (get_token ⟨some "tok1", 60⟩ 60 .httpError).state = ⟨some "tok1", 60⟩
    ∧ (get_token ⟨some "tok1", 60⟩ 61 .httpError).result = .error () := by
  exact ⟨rfl, rfl, rfl, rfl⟩

/-- C3 (amended): a failing fetch leaves both cached fields unchanged and the
error propagates; a subsequent call succeeds by returning the cached token
exactly when it runs strictly before the stored (buffered) expiry with a
non-empty cached token, while a call at or past the stored expiry re-attempts
the fetch and fails again whenever that fetch fails — the stale token is not
served once the stored expiry has passed; and if no token was ever cached
(Empty state) every call whose fetch fails continues to fail with the state
staying Empty. -/
theorem failed_fetch_window_behavior (s : ManagerState) (now : ℤ)
    (r : FetchResult) (hr : r.isFailure = true) (hst : needsFetch s now = true) :
    (get_token s now r).result = .error ()
    ∧ (get_token s now r).state = s
    ∧ (∀ (t : ℤ) (r2 : FetchResult),
        pyTruthy s.access_token = true → t < s.token_expiry →
        get_token s t r2 = ⟨.ok s.access_token, s, false⟩)
    ∧ (∀ (t : ℤ) (r2 : FetchResult), t ≥ s.token_expiry → r2.isFailure = true →
        (get_token s t r2).result = .error () ∧ (get_token s t r2).state = s)
    ∧ (s.access_token = none →
        ∀ (t : ℤ) (r2 : FetchResult), r2.isFailure = true →
        (get_token s t r2).result = .error () ∧ (get_token s t r2).state = s) := by
  refine ⟨?_, ?_, ?_, ?_, ?_⟩
  · rw [get_token_stale_err s now r hst hr]
  · rw [get_token_stale_err s now r hst hr]
  · intro t r2 htr hlt
    exact get_token_cached s t r2 htr hlt
  · intro t r2 hge hr2
    have hst2 : needsFetch s t = true :=
      (needsFetch_true_iff s t).mpr (Or.inr hge)
    rw [get_token_stale_err s t r2 hst2 hr2]
    exact ⟨rfl, rfl⟩
  · intro hnone t r2 hr2
    have hst2 : needsFetch s t = true := by
      refine (needsFetch_true_iff s t).mpr (Or.inl ?_)
      rw [hnone]
      rfl
    rw [get_token_stale_err s t r2 hst2 hr2]
    exact ⟨rfl, rfl⟩

/-- C3 amended witness: with tok1 cached until 60, the failing fetch at t=60
propagates the error and keeps the state, while a call at t=59 returns the
cached tok1 without fetching. -/
theorem failed_fetch_window_behavior_witness :
    (get_token ⟨some "tok1", 60⟩ 60 .httpError).result = .error ()
    ∧ (get_token ⟨some "tok1", 60⟩ 60 .httpError).state = ⟨some "tok1", 60⟩
    ∧ get_token ⟨some "tok1", 60⟩ 59 .netError =
        ⟨.ok (some "tok1"), ⟨some "tok1", 60⟩, false⟩ := by
  have h := failed_fetch_window_behavior ⟨some "tok1", 60⟩ 60 .httpError rfl (by decide)
  exact ⟨h.1, h.2.1, h.2.2.1 59 .netError (by decide) (by decide)⟩

/- Interleaving model for concurrent get_token calls.  src/app.py lines 58-62
   and 43-56 contain no lock, no single-flight guard and no other
   mutual-exclusion construct, and requests.post releases the interpreter lock
   during network I/O, so the staleness check, the provider round trip and the
   two field assignments of distinct calls can interleave freely.  Each atomic
   action of one thread executing get_token is one program counter step:
   the staleness check (line 60), the provider round trip (line 44, counted),
   the assignment to _access_token (line 48), the assignment to _token_expiry
   (line 51), and the final read of _access_token (line 62). -/

inductive PC where
  | check
  | fetch
  | storeTok
  | storeExp
  | ret
  | done
  deriving DecidableEq, Repr

/-- One thread running get_token: its program counter, the wall-clock time of
its call, the provider outcome its fetch attempt would see, and the value it
returned (absent while running or when the call raised). -/
structure GetTokenThread where
  pc : PC
  now : ℤ
  fres : FetchResult
  retval : Option (Option String)

/-- Shared state plus two concurrent get_token calls and the number of
provider fetches issued so far. -/
structure TwoCallSystem where
  mgr : ManagerState
  t0 : GetTokenThread
  t1 : GetTokenThread
  fetchCount : ℕ

/-- One atomic action of a single thread against the shared ManagerState,
straight from the lines of get_token and _fetch_new_token. -/
def threadStep (m : ManagerState) (cnt : ℕ) (th : GetTokenThread) :
    ManagerState × ℕ × GetTokenThread :=
  match th.pc with
  | .check =>
      if needsFetch m th.now then (m, cnt, { th with pc := .fetch })
      else (m, cnt, { th with pc := .done, retval := some m.access_token })
  | .fetch =>
      match th.fres with
      | .ok _ _ => (m, cnt + 1, { th with pc := .storeTok })
      | _ => (m, cnt + 1, { th with pc := .done, retval := none })
  | .storeTok =>
      match th.fres with
      | .ok tok _ => ({ m with access_token := some tok }, cnt, { th with pc := .storeExp })
      | _ => (m, cnt, { th with pc := .done })
  | .storeExp =>
      match th.fres with
      | .ok _ ein =>
          ({ m with token_expiry := th.now + ein.getD 3600 - 60 }, cnt,
            { th with pc := .ret })
      | _ => (m, cnt, { th with pc := .done })
  | .ret => (m, cnt, { th with pc := .done, retval := some m.access_token })
  | .done => (m, cnt, th)

/-- Scheduler step: false runs the next atomic action of thread t0, true of
thread t1. -/
def sysStep (sys : TwoCallSystem) (i : Bool) : TwoCallSystem :=
  if i then
    let r := threadStep sys.mgr sys.fetchCount sys.t1
    { mgr := r.1, t0 := sys.t0, t1 := r.2.2, fetchCount := r.2.1 }
  else
    let r := threadStep sys.mgr sys.fetchCount sys.t0
    { mgr := r.1, t0 := r.2.2, t1 := sys.t1, fetchCount := r.2.1 }

/-- Run a schedule of interleaved atomic actions. -/
def runSchedule (sys : TwoCallSystem) : List Bool → TwoCallSystem
  | [] => sys
  | i :: rest => runSchedule (sysStep sys i) rest

/-- Thread calling at t=0 whose fetch would obtain tokA valid for 120. -/
def threadA : GetTokenThread := ⟨.check, 0, .ok "tokA" (some 120), none⟩

/-- Thread calling at t=0 whose fetch would obtain tokB valid for 120. -/
def threadB : GetTokenThread := ⟨.check, 0, .ok "tokB" (some 120), none⟩

/-- C8: get_token's check-then-fetch-then-store runs with no mutual exclusion
in the source, and the claim fails.  With both calls finding the Empty cache
stale, the interleaving that lets both pass the staleness check before either
fetch completes issues two provider fetches, not one; after three actions of
one thread alone, the shared state holds the freshly stored token next to the
stale expiry 0 — the mismatched half-written pair a concurrent reader can
observe; and only a fully serialized schedule performs the single fetch the
claim demands. -/
theorem unsynchronized_get_token_races :
    (runSchedule ⟨⟨none, 0⟩, threadA, threadB, 0⟩
        [false, true, false, true]).fetchCount = 2
    ∧ (runSchedule ⟨⟨none, 0⟩, threadA, threadB, 0⟩
        [false, false, false]).mgr = ⟨some "tokA", 0⟩
    ∧ (runSchedule ⟨⟨none, 0⟩, threadA, threadB, 0⟩
        [false, false, false, false, false, true]).fetchCount = 1 := by
  exact ⟨rfl, rfl, rfl⟩

/- Embedding of make_secure_request (src/app.py lines 72-130). -/

/-- Python dict of HTTP headers: exact (case-sensitive) string keys, as used by
the membership test on line 109. -/
abbrev HeaderMap := String → Option String

/-- Dict assignment headers[k] = v. -/
def updateHeader (h : HeaderMap) (k v : String) : HeaderMap :=
  fun k2 => if k2 = k then some v else h k2

/-- Python str() of an Optional[str] as interpolated by the f-string on line
106 (None prints as the four-letter word None). -/
def pyStr : Option String → String
  | some s => s
  | none => "None"

/-- Python truthiness of the Optional[Dict] payload argument as tested on line
109: None and the empty dict are falsy. -/
def payloadTruthy : Option (List (String × String)) → Bool
  | none => false
  | some l => !l.isEmpty

/-- Raw HTTP response of the authenticated call: status code and body,
returned uninterpreted. -/
structure RawResponse where
  status_code : ℤ
  body : String
  deriving DecidableEq, Repr

/-- Outcome of the network call on line 114: either a response came back (with
any status code — raise_for_status is commented out) or requests raised a
RequestException (network or timeout failure). -/
inductive NetworkOutcome where
  | respond (resp : RawResponse)
  | netFail
  deriving DecidableEq, Repr

/-- Error surfaced by make_secure_request: the RuntimeError of line 99 wrapping
a token-acquisition failure, or the re-raised RequestException of line 130. -/
inductive RequestError where
  | authError
  | transportError
  deriving DecidableEq, Repr

/-- The outbound request handed to requests.request on lines 114-121. -/
structure OutboundRequest where
  method : String
  url : String
  params : Option (List (String × String))
  payload : Option (List (String × String))
  headers : HeaderMap
  timeout : ℤ

/-- Observable outcome of one make_secure_request call: the returned response
or raised error, the outbound network request if one was issued, the caller's
headers dict after the call (the source mutates the caller's dict in place
when one was supplied), and the manager state after the call. -/
structure SecureRequestResult where
  result : Except RequestError RawResponse
  outbound : Option OutboundRequest
  headersAfter : HeaderMap
  mgr : ManagerState

/-- Line 106: headers["Authorization"] = f-string Bearer token. -/
def attachAuth (h : HeaderMap) (token : Option String) : HeaderMap :=
  updateHeader h "Authorization" ("Bearer " ++ pyStr token)

/-- Lines 109-110: when the payload is truthy and the exact key Content-Type
is not in the dict, headers["Content-Type"] = "application/json". -/
def attachContentType (payload : Option (List (String × String)))
    (h : HeaderMap) : HeaderMap :=
  if payloadTruthy payload && (h "Content-Type").isNone
  then updateHeader h "Content-Type" "application/json" else h

/-- make_secure_request (src/app.py lines 72-130): obtain a token (wrapping any
failure as the auth error before any header work), set the Authorization
header on the caller's dict, add Content-Type application/json when the
payload is truthy and the exact key Content-Type is absent, then issue the
request and return the raw response, re-raising network failures as the
transport error. -/
def make_secure_request (mgr : ManagerState) (now : ℤ) (fr : FetchResult)
    (method endpoint : String) (params payload : Option (List (String × String)))
    (headers : Option HeaderMap) (timeout : ℤ) (net : NetworkOutcome) :
    SecureRequestResult :=
  match get_token mgr now fr with
  | ⟨.error _, s2, _⟩ =>
      ⟨.error .authError, none, headers.getD fun _ => none, s2⟩
  | ⟨.ok token, s2, _⟩ =>
      let h0 : HeaderMap := headers.getD fun _ => none
      let h2 := attachContentType payload (attachAuth h0 token)
      let req : OutboundRequest := ⟨method.toUpper, endpoint, params, payload, h2, timeout⟩
      match net with
      | .respond resp => ⟨.ok resp, some req, h2, s2⟩
      | .netFail => ⟨.error .transportError, some req, h2, s2⟩

theorem updateHeader_same (h : HeaderMap) (k v : String) :
    updateHeader h k v k = some v := by
  simp [updateHeader]

theorem updateHeader_other (h : HeaderMap) (k v k2 : String) (hne : k2 ≠ k) :
    updateHeader h k v k2 = h k2 := by
  simp [updateHeader, hne]

theorem attachAuth_auth (h : HeaderMap) (tok : Option String) :
    attachAuth h tok "Authorization" = some ("Bearer " ++ pyStr tok) :=
  updateHeader_same h "Authorization" _

theorem attachAuth_other (h : HeaderMap) (tok : Option String) (k : String)
    (hk : k ≠ "Authorization") : attachAuth h tok k = h k :=
  updateHeader_other h "Authorization" _ k hk

theorem attachContentType_add (payload : Option (List (String × String)))
    (h : HeaderMap) (hp : payloadTruthy payload = true)
    (hct : h "Content-Type" = none) :
    attachContentType payload h "Content-Type" = some "application/json" := by
  unfold attachContentType
  rw [hp, hct]
  exact updateHeader_same h "Content-Type" _

theorem attachContentType_keep (payload : Option (List (String × String)))
    (h : HeaderMap) (v : String) (hct : h "Content-Type" = some v) :
    attachContentType payload h "Content-Type" = some v := by
  unfold attachContentType
  simp [hct]

theorem attachContentType_other (payload : Option (List (String × String)))
    (h : HeaderMap) (k : String) (hk : k ≠ "Content-Type") :
    attachContentType payload h k = h k := by
  unfold attachContentType
  cases hq : payloadTruthy payload && (h "Content-Type").isNone
  · rw [if_neg Bool.false_ne_true]
  · rw [if_pos rfl]
    exact updateHeader_other h "Content-Type" _ k hk

theorem attachContentType_cases (payload : Option (List (String × String)))
    (h : HeaderMap) :
    attachContentType payload h "Content-Type" = h "Content-Type"
    ∨ attachContentType payload h "Content-Type" = some "application/json" := by
  unfold attachContentType
  cases hq : payloadTruthy payload && (h "Content-Type").isNone
  · rw [if_neg Bool.false_ne_true]
    exact Or.inl rfl
  · rw [if_pos rfl]
    exact Or.inr (updateHeader_same h "Content-Type" _)

theorem make_secure_request_ok_parts (mgr : ManagerState) (now : ℤ)
    (fr : FetchResult) (method endpoint : String)
    (params payload : Option (List (String × String))) (h : HeaderMap)
    (timeout : ℤ) (net : NetworkOutcome) (tok : Option String)
    (htok : (get_token mgr now fr).result = .ok tok) :
    (make_secure_request mgr now fr method endpoint params payload (some h)
        timeout net).outbound =
      some ⟨method.toUpper, endpoint, params, payload,
        attachContentType payload (attachAuth h tok), timeout⟩
    ∧ (make_secure_request mgr now fr method endpoint params payload (some h)
        timeout net).headersAfter = attachContentType payload (attachAuth h tok) := by
  rcases hG : get_token mgr now fr with ⟨res, s2, fl⟩
  rw [hG] at htok
  dsimp only at htok
  subst htok
  cases net <;> simp [make_secure_request, hG, Option.getD]

theorem make_secure_request_err_parts (mgr : ManagerState) (now : ℤ)
    (fr : FetchResult) (method endpoint : String)
    (params payload : Option (List (String × String)))
    (headers : Option HeaderMap) (timeout : ℤ) (net : NetworkOutcome)
    (herr : (get_token mgr now fr).result = .error ()) :
    make_secure_request mgr now fr method endpoint params payload headers
        timeout net =
      ⟨.error .authError, none, headers.getD fun _ => none,
        (get_token mgr now fr).state⟩ := by
  rcases hG : get_token mgr now fr with ⟨res, s2, fl⟩
  rw [hG] at herr
  dsimp only at herr
  subst herr
  simp [make_secure_request, hG]

/-- C5 counterexample: with a valid cached token, a call passing the empty
JSON object as payload (a JSON body that requests would serialize and send)
and no caller content-type header completes successfully and carries that
body on the outbound request, yet no Content-Type header is added — line 109
tests Python truthiness of the payload, and the empty dict is falsy. -/
theorem empty_json_body_content_type_counterexample :
    (make_secure_request ⟨some "tok1", 100⟩ 0 .httpError "post" "u" none
        (some []) (some fun _ => none) 30 (.respond ⟨200, ""⟩)).result = .ok ⟨200, ""⟩
    ∧ ((make_secure_request ⟨some "tok1", 100⟩ 0 .httpError "post" "u" none
        (some []) (some fun _ => none) 30 (.respond ⟨200, ""⟩)).outbound.map
          fun rq => rq.payload) = some (some [])
    ∧ ((make_secure_request ⟨some "tok1", 100⟩ 0 .httpError "post" "u" none
        (some []) (some fun _ => none) 30 (.respond ⟨200, ""⟩)).outbound.map
          fun rq => rq.headers "Content-Type") = some none := by
  exact ⟨rfl, rfl, rfl⟩

/-- C5 (amended): on every call whose token acquisition succeeds, the outbound
request's headers contain Authorization equal to Bearer followed by the token
just obtained from the manager; if a non-empty (Python-truthy) JSON body is
present and the caller supplied no entry under the exact key Content-Type,
a Content-Type of application/json is added; an explicit caller-supplied
Content-Type value is left unmodified. -/
theorem make_secure_request_header_spec (mgr : ManagerState) (now : ℤ)
    (fr : FetchResult) (method endpoint : String)
    (params payload : Option (List (String × String))) (h : HeaderMap)
    (timeout : ℤ) (net : NetworkOutcome) (tok : Option String)
    (htok : (get_token mgr now fr).result = .ok tok) :
    ∃ rq : OutboundRequest,
      (make_secure_request mgr now fr method endpoint params payload (some h)
          timeout net).outbound = some rq
      ∧ rq.headers "Authorization" = some ("Bearer " ++ pyStr tok)
      ∧ (payloadTruthy payload = true → h "Content-Type" = none →
          rq.headers "Content-Type" = some "application/json")
      ∧ ∀ v, h "Content-Type" = some v → rq.headers "Content-Type" = some v := by
  have hp := make_secure_request_ok_parts mgr now fr method endpoint params
    payload h timeout net tok htok
  refine ⟨_, hp.1, ?_, ?_, ?_⟩
  · show attachContentType payload (attachAuth h tok) "Authorization" = _
    rw [attachContentType_other _ _ _ (by decide), attachAuth_auth]
  · intro hpt hct
    show attachContentType payload (attachAuth h tok) "Content-Type" = _
    refine attachContentType_add payload _ hpt ?_
    rw [attachAuth_other _ _ _ (by decide), hct]
  · intro v hv
    show attachContentType payload (attachAuth h tok) "Content-Type" = _
    refine attachContentType_keep payload _ v ?_
    rw [attachAuth_other _ _ _ (by decide), hv]

/-- C5 witness: a cached-token call with a non-empty JSON body and an empty
caller dict gets both the Bearer header and the added application/json
content type on its outbound request. -/
theorem make_secure_request_header_spec_witness :
    ∃ rq : OutboundRequest,
      (make_secure_request ⟨some "tok1", 100⟩ 0 .httpError "post" "u" none
          (some [("a", "b")]) (some fun _ => none) 30
          (.respond ⟨200, ""⟩)).outbound = some rq
      ∧ rq.headers "Authorization" = some ("Bearer " ++ pyStr (some "tok1"))
      ∧ rq.headers "Content-Type" = some "application/json" := by
  rcases make_secure_request_header_spec ⟨some "tok1", 100⟩ 0 .httpError "post"
      "u" none (some [("a", "b")]) (fun _ => none) 30 (.respond ⟨200, ""⟩)
      (some "tok1") rfl with ⟨rq, h1, h2, h3, h4⟩
  exact ⟨rq, h1, h2, h3 rfl rfl⟩

/-- C6: make_secure_request fails with the auth-typed error exactly when token
acquisition fails, and then the outbound network call is never issued; a
network failure after a token was obtained and attached surfaces as the
distinct transport-typed error on an issued request. -/
theorem make_secure_request_error_taxonomy (mgr : ManagerState) (now : ℤ)
    (fr : FetchResult) (method endpoint : String)
    (params payload : Option (List (String × String)))
    (headers : Option HeaderMap) (timeout : ℤ) (net : NetworkOutcome) :
    ((make_secure_request mgr now fr method endpoint params payload headers
        timeout net).result = .error .authError
      ↔ (get_token mgr now fr).result = .error ())
    ∧ ((get_token mgr now fr).result = .error () →
        (make_secure_request mgr now fr method endpoint params payload headers
          timeout net).outbound = none)
    ∧ (∀ tok : Option String, (get_token mgr now fr).result = .ok tok →
        net = .netFail →
        (make_secure_request mgr now fr method endpoint params payload headers
            timeout net).result = .error .transportError
        ∧ (make_secure_request mgr now fr method endpoint params payload headers
            timeout net).outbound ≠ none)
    ∧ RequestError.authError ≠ RequestError.transportError := by
  rcases hG : get_token mgr now fr with ⟨res, s2, fl⟩
  cases res with
  | error e =>
    cases e
    refine ⟨?_, ?_, ?_, by simp⟩
    · simp [make_secure_request, hG]
    · intro _
      simp [make_secure_request, hG]
    · intro tok htok hnet
      exact absurd htok (by simp)
  | ok token =>
    refine ⟨?_, ?_, ?_, by simp⟩
    · cases net <;> simp [make_secure_request, hG]
    · intro hbad
      exact absurd hbad (by simp)
    · intro tok htok hnet
      subst hnet
      constructor
      · simp [make_secure_request, hG]
      · simp [make_secure_request, hG]

/-- C6 witness: an Empty-cache call whose fetch gets HTTP 500 raises the auth
error and issues no outbound request, while a cached-token call whose network
call fails raises the transport error. -/
theorem make_secure_request_error_taxonomy_witness :
    (make_secure_request ⟨none, 0⟩ 0 .httpError "get" "u" none none none 30
        (.respond ⟨200, ""⟩)).result = .error .authError
    ∧ (make_secure_request ⟨none, 0⟩ 0 .httpError "get" "u" none none none 30
        (.respond ⟨200, ""⟩)).outbound = none
    ∧ (make_secure_request ⟨some "tok1", 100⟩ 0 .httpError "get" "u" none none
        none 30 .netFail).result = .error .transportError := by
  have hA := make_secure_request_error_taxonomy ⟨none, 0⟩ 0 .httpError "get"
    "u" none none none 30 (.respond ⟨200, ""⟩)
  have hT := make_secure_request_error_taxonomy ⟨some "tok1", 100⟩ 0
    .httpError "get" "u" none none none 30 .netFail
  exact ⟨hA.1.mpr rfl, hA.2.1 rfl, (hT.2.2.1 (some "tok1") rfl rfl).1⟩

/-- C7: whenever the network call completes with a response, make_secure_request
returns that raw response unchanged, whatever its status code — it never
raises because of the HTTP status of the authenticated call. -/
theorem make_secure_request_returns_raw_response (mgr : ManagerState)
    (now : ℤ) (fr : FetchResult) (method endpoint : String)
    (params payload : Option (List (String × String)))
    (headers : Option HeaderMap) (timeout : ℤ) (tok : Option String)
    (resp : RawResponse)
    (htok : (get_token mgr now fr).result = .ok tok) :
    (make_secure_request mgr now fr method endpoint params payload headers
        timeout (.respond resp)).result = .ok resp := by
  rcases hG : get_token mgr now fr with ⟨res, s2, fl⟩
  rw [hG] at htok
  dsimp only at htok
  subst htok
  simp [make_secure_request, hG]

/-- C7 witness: a 500 response comes back as a plain return value, not an
error. -/
theorem make_secure_request_returns_raw_response_witness :
    (make_secure_request ⟨some "tok1", 100⟩ 0 .httpError "get" "u" none none
        none 30 (.respond ⟨500, "boom"⟩)).result = .ok ⟨500, "boom"⟩ :=
  make_secure_request_returns_raw_response ⟨some "tok1", 100⟩ 0 .httpError
    "get" "u" none none none 30 (some "tok1") ⟨500, "boom"⟩ rfl

/-- C9 counterexample: a call whose token acquisition fails (Empty cache, HTTP
500 from the provider) raises before line 106 ever runs, so the
caller-supplied dict is not mutated at all: its Authorization entry stays
absent, against the claim that every call sets it. -/
theorem auth_failure_leaves_caller_headers_unmodified :
    (make_secure_request ⟨none, 0⟩ 0 .httpError "get" "u" none none
        (some fun _ => none) 30 (.respond ⟨200, ""⟩)).result = .error .authError
    ∧ (make_secure_request ⟨none, 0⟩ 0 .httpError "get" "u" none none
        (some fun _ => none) 30 (.respond ⟨200, ""⟩)).headersAfter
          "Authorization" = none := by
  exact ⟨rfl, rfl⟩

/-- C9 (amended): on every call with a caller-supplied headers dict whose
token acquisition succeeds, the dict is mutated in place: its Authorization
entry is set to the Bearer value (overwriting whatever the caller put there),
its Content-Type entry is either left as supplied or set to application/json,
and no entry under any other key changes. -/
theorem make_secure_request_mutates_caller_dict (mgr : ManagerState)
    (now : ℤ) (fr : FetchResult) (method endpoint : String)
    (params payload : Option (List (String × String))) (h : HeaderMap)
    (timeout : ℤ) (net : NetworkOutcome) (tok : Option String)
    (htok : (get_token mgr now fr).result = .ok tok) :
    (make_secure_request mgr now fr method endpoint params payload (some h)
        timeout net).headersAfter "Authorization" = some ("Bearer " ++ pyStr tok)
    ∧ ((make_secure_request mgr now fr method endpoint params payload (some h)
          timeout net).headersAfter "Content-Type" = h "Content-Type"
        ∨ (make_secure_request mgr now fr method endpoint params payload (some h)
          timeout net).headersAfter "Content-Type" = some "application/json")
    ∧ ∀ k : String, k ≠ "Authorization" → k ≠ "Content-Type" →
        (make_secure_request mgr now fr method endpoint params payload (some h)
          timeout net).headersAfter k = h k := by
  have hp := make_secure_request_ok_parts mgr now fr method endpoint params
    payload h timeout net tok htok
  rw [hp.2]
  refine ⟨?_, ?_, ?_⟩
  · rw [attachContentType_other _ _ _ (by decide), attachAuth_auth]
  · rcases attachContentType_cases payload (attachAuth h tok) with hc | hc
    · left
      rw [hc]
      exact attachAuth_other h tok _ (by decide)
    · right
      exact hc
  · intro k hk1 hk2
    rw [attachContentType_other _ _ k hk2, attachAuth_other h tok k hk1]

/-- C9 witness: with a dict holding a caller Authorization value, the call
overwrites it with the Bearer token and leaves an unrelated key untouched. -/
theorem make_secure_request_mutates_caller_dict_witness :
    (make_secure_request ⟨some "tok1", 100⟩ 0 .httpError "get" "u" none none
        (some fun k => if k = "Authorization" then some "old" else none) 30
        (.respond ⟨200, ""⟩)).headersAfter "Authorization" =
      some ("Bearer " ++ pyStr (some "tok1"))
    ∧ (make_secure_request ⟨some "tok1", 100⟩ 0 .httpError "get" "u" none none
        (some fun k => if k = "Authorization" then some "old" else none) 30
        (.respond ⟨200, ""⟩)).headersAfter "X-Custom" = none := by
  have h := make_secure_request_mutates_caller_dict ⟨some "tok1", 100⟩ 0
    .httpError "get" "u" none none
    (fun k => if k = "Authorization" then some "old" else none) 30
    (.respond ⟨200, ""⟩) (some "tok1") rfl
  refine ⟨h.1, ?_⟩
  have h3 := h.2.2 "X-Custom" (by decide) (by decide)
  rw [h3]
  rfl
